import Mathlib

/-!
Verification of the three-stage stock-market rule classifier
(`fuzzy_logic/stock_market_fuzzy_logic.py` and `fuzzy_logic/main.py`).

The Python class `StockMarketFuzzyLogic` is embedded as a structure holding
the six raw numeric fields together with the two derived fields that
`__init__` computes and stores (`bid_ask_spread`, `dcm`).  Python floats are
modelled as rationals; every branch in the source is a crisp threshold
comparison, so the branch structure is preserved verbatim.  The constructor
divides by `ask_price`, which raises `ZeroDivisionError` in Python when
`ask_price == 0`; construction is therefore modelled as an `Option`-valued
function `StockMarketFuzzyLogic.init` that returns `none` exactly on that
error path.  The nested conditional of `block3` has no final `else` and can
fall through returning Python `None`; `block3` therefore returns
`Option String`, with `none` for the fall-through.
-/

structure StockMarketFuzzyLogic where
  ma_s : ℚ
  ma_l : ℚ
  rsi : ℚ
  beta_stock : ℚ
  bid_price : ℚ
  ask_price : ℚ
  bid_ask_spread : ℚ
  dcm : ℚ
  deriving DecidableEq

/-- Embedding of `StockMarketFuzzyLogic.__init__`: stores the six raw
arguments and computes `bid_ask_spread = (ask_price - bid_price) / ask_price`
and `dcm = ma_s - ma_l`.  Returns `none` exactly when the division raises,
i.e. when `ask_price = 0`. -/
def StockMarketFuzzyLogic.init (ma_s ma_l rsi beta_stock bid_price ask_price : ℚ) :
    Option StockMarketFuzzyLogic :=
  if ask_price = 0 then none
  else some ⟨ma_s, ma_l, rsi, beta_stock, bid_price, ask_price,
             (ask_price - bid_price) / ask_price, ma_s - ma_l⟩

/-- Embedding of `block1` (validity of strategy). -/
def StockMarketFuzzyLogic.block1 (self : StockMarketFuzzyLogic) : String :=
  if self.beta_stock > 1 then
    if self.bid_ask_spread > 0.015 then "slight" else "very"
  else if self.beta_stock < 1 then
    if self.bid_ask_spread > 0.015 then "not" else "slight"
  else
    "slight"

/-- Embedding of `block2` (strength of signals). -/
def StockMarketFuzzyLogic.block2 (self : StockMarketFuzzyLogic) : String :=
  if self.rsi > 70 then
    if self.dcm < 1 then "neutral" else "average buy"
  else if self.rsi > 50 then
    if self.dcm < 1 then "neutral" else "strong buy"
  else if self.rsi >= 30 then
    if self.dcm < 1 then "strong sell" else "neutral"
  else
    if self.dcm < 1 then "average sell" else "neutral"

/-- The nested conditional inside `block3`, as a function of the two
category strings it branches on.  `none` is the implicit fall-through of the
Python conditional (no final `else`). -/
def stage3Table (validity_of_strategy strength_of_signals : String) : Option String :=
  if validity_of_strategy = "slight" then
    if strength_of_signals = "average buy" then some "low confidence buy"
    else if strength_of_signals = "strong buy" then some "moderate confidence buy"
    else if strength_of_signals = "neutral" then some "no confidence trade"
    else if strength_of_signals = "strong sell" then some "moderate confidence sell"
    else if strength_of_signals = "average sell" then some "low confidence sell"
    else none
  else if validity_of_strategy = "very" then
    if strength_of_signals = "average buy" then some "moderate confidence buy"
    else if strength_of_signals = "strong buy" then some "high confidence buy"
    else if strength_of_signals = "neutral" then some "no confidence trade"
    else if strength_of_signals = "strong sell" then some "high confidence sell"
    else if strength_of_signals = "average sell" then some "moderate confidence sell"
    else none
  else if validity_of_strategy = "not" then
    some "no confidence trade"
  else none

/-- Embedding of `block3`: computes `validity_of_strategy = self.block1()`
and `strength_of_signals = self.block2()` and runs the nested conditional. -/
def StockMarketFuzzyLogic.block3 (self : StockMarketFuzzyLogic) : Option String :=
  stage3Table self.block1 self.block2

/-- The end-to-end evaluation performed by `main.py`: construct the record
from the six inputs and run `block3` on it.  Construction failure
(`ask_price = 0`) propagates. -/
def evaluate (ma_s ma_l rsi beta_stock bid_price ask_price : ℚ) : Option String :=
  (StockMarketFuzzyLogic.init ma_s ma_l rsi beta_stock bid_price ask_price).bind
    StockMarketFuzzyLogic.block3

/-- Explicit state-passing form of `block1`.  The Python method body
contains no assignment to `self`, so the translated step returns the record
unchanged alongside the result. -/
def StockMarketFuzzyLogic.block1St (self : StockMarketFuzzyLogic) :
    String × StockMarketFuzzyLogic :=
  (self.block1, self)

/-- Explicit state-passing form of `block2` (no assignment to `self` in the
source body). -/
def StockMarketFuzzyLogic.block2St (self : StockMarketFuzzyLogic) :
    String × StockMarketFuzzyLogic :=
  (self.block2, self)

/-- Explicit state-passing form of `block3` (no assignment to `self` in the
source body; it only calls `block1` and `block2`, which are likewise
assignment-free). -/
def StockMarketFuzzyLogic.block3St (self : StockMarketFuzzyLogic) :
    Option String × StockMarketFuzzyLogic :=
  (self.block3, self)

/-- The seven decision strings of the Stage-3 table. -/
def decisionStrings : List String :=
  ["high confidence buy", "moderate confidence buy", "low confidence buy",
   "no confidence trade", "high confidence sell", "moderate confidence sell",
   "low confidence sell"]

lemma block1_mem (s : StockMarketFuzzyLogic) :
    s.block1 = "very" ∨ s.block1 = "slight" ∨ s.block1 = "not" := by
  unfold StockMarketFuzzyLogic.block1
  split_ifs <;> simp

lemma block2_mem (s : StockMarketFuzzyLogic) :
    s.block2 = "strong buy" ∨ s.block2 = "average buy" ∨ s.block2 = "neutral" ∨
      s.block2 = "strong sell" ∨ s.block2 = "average sell" := by
  unfold StockMarketFuzzyLogic.block2
  split_ifs <;> simp

lemma block3_total (s : StockMarketFuzzyLogic) :
    ∃ d, s.block3 = some d ∧ d ∈ decisionStrings := by
  unfold StockMarketFuzzyLogic.block3
  rcases block1_mem s with h1 | h1 | h1 <;>
    rcases block2_mem s with h2 | h2 | h2 | h2 | h2 <;>
      rw [h1, h2] <;> exact ⟨_, rfl, by decide⟩

lemma block3_congr (s t : StockMarketFuzzyLogic)
    (hb : s.beta_stock = t.beta_stock) (hsp : s.bid_ask_spread = t.bid_ask_spread)
    (hd : s.dcm = t.dcm) (hr : s.rsi = t.rsi) :
    s.block3 = t.block3 := by
  have h1 : s.block1 = t.block1 := by
    unfold StockMarketFuzzyLogic.block1
    rw [hb, hsp]
  have h2 : s.block2 = t.block2 := by
    unfold StockMarketFuzzyLogic.block2
    rw [hr, hd]
  unfold StockMarketFuzzyLogic.block3
  rw [h1, h2]

/-- C1: for the sample inputs of `main.py`
(`shortMA = 127.64`, `longMA = 107.17`, `oscillator = 50.64`, `beta = 1.28`,
`bidPrice = 131.75`, `askPrice = 131.78`) the full three-stage evaluation
returns exactly the string "high confidence buy". -/
theorem evaluate_sample_high_confidence_buy :
    evaluate 127.64 107.17 50.64 1.28 131.75 131.78 = some "high confidence buy" := by
  norm_num [evaluate, StockMarketFuzzyLogic.init, StockMarketFuzzyLogic.block3,
    StockMarketFuzzyLogic.block1, StockMarketFuzzyLogic.block2, stage3Table]
  decide

/-- C2: `block2` realises the ordered guard chain `> 70`, `> 50`, `>= 30`,
else, with the stated result in each band; in particular oscillator exactly
70 falls in the `> 50` band, exactly 50 falls in the `>= 30` band, and
`(oscillator = 30, crossoverDelta = 0.5)` yields "strong sell". -/
theorem block2_bands (s : StockMarketFuzzyLogic) :
    (70 < s.rsi → s.block2 = if s.dcm < 1 then "neutral" else "average buy") ∧
    (50 < s.rsi → s.rsi ≤ 70 →
      s.block2 = if s.dcm < 1 then "neutral" else "strong buy") ∧
    (30 ≤ s.rsi → s.rsi ≤ 50 →
      s.block2 = if s.dcm < 1 then "strong sell" else "neutral") ∧
    (s.rsi < 30 → s.block2 = if s.dcm < 1 then "average sell" else "neutral") ∧
    (s.rsi = 30 → s.dcm = 0.5 → s.block2 = "strong sell") := by
  unfold StockMarketFuzzyLogic.block2
  refine ⟨?_, ?_, ?_, ?_, ?_⟩
  · intro h1
    rw [if_pos h1]
  · intro h1 h2
    rw [if_neg (by exact not_lt.mpr h2), if_pos h1]
  · intro h1 h2
    rw [if_neg (by exact not_lt.mpr (by linarith)), if_neg (by exact not_lt.mpr h2),
      if_pos h1]
  · intro h1
    rw [if_neg (by exact not_lt.mpr (by linarith)), if_neg (by exact not_lt.mpr (by linarith)),
      if_neg (by exact not_le.mpr h1)]
  · intro h1 h2
    rw [if_neg (by rw [h1]; norm_num), if_neg (by rw [h1]; norm_num),
      if_pos (by rw [h1]), if_pos (by rw [h2]; norm_num)]

/-- Witness for C2: a concrete record with `rsi = 30` and `dcm = 0.5`
classifies as "strong sell" through the `>= 30` band. -/
theorem block2_bands_witness :
    (⟨0, 0, 30, 0, 0, 1, 0, 0.5⟩ : StockMarketFuzzyLogic).block2 = "strong sell" :=
  (block2_bands ⟨0, 0, 30, 0, 0, 1, 0, 0.5⟩).2.2.2.2 rfl rfl

/-- C3: `block1` returns "very" when `beta > 1` and `spreadRatio ≤ 0.015`,
"slight" when `beta > 1` and `spreadRatio > 0.015`, "not" when `beta < 1`
and `spreadRatio > 0.015`, "slight" when `beta < 1` and
`spreadRatio ≤ 0.015`, and "slight" when `beta = 1` whatever the spread. -/
theorem block1_table (s : StockMarketFuzzyLogic) :
    (1 < s.beta_stock → s.bid_ask_spread ≤ 0.015 → s.block1 = "very") ∧
    (1 < s.beta_stock → 0.015 < s.bid_ask_spread → s.block1 = "slight") ∧
    (s.beta_stock < 1 → 0.015 < s.bid_ask_spread → s.block1 = "not") ∧
    (s.beta_stock < 1 → s.bid_ask_spread ≤ 0.015 → s.block1 = "slight") ∧
    (s.beta_stock = 1 → s.block1 = "slight") := by
  unfold StockMarketFuzzyLogic.block1
  refine ⟨?_, ?_, ?_, ?_, ?_⟩
  · intro h1 h2
    rw [if_pos h1, if_neg (by exact not_lt.mpr h2)]
  · intro h1 h2
    rw [if_pos h1, if_pos h2]
  · intro h1 h2
    rw [if_neg (by exact not_lt.mpr (le_of_lt h1)), if_pos h1, if_pos h2]
  · intro h1 h2
    rw [if_neg (by exact not_lt.mpr (le_of_lt h1)), if_pos h1,
      if_neg (by exact not_lt.mpr h2)]
  · intro h1
    rw [if_neg (by rw [h1]; exact lt_irrefl 1), if_neg (by rw [h1]; exact lt_irrefl 1)]

/-- Witness for C3: a concrete record with `beta = 1.28` and spread `0.01`
classifies as "very". -/
theorem block1_table_witness :
    (⟨0, 0, 0, 1.28, 0, 1, 0.01, 0⟩ : StockMarketFuzzyLogic).block1 = "very" :=
  (block1_table ⟨0, 0, 0, 1.28, 0, 1, 0.01, 0⟩).1 (by norm_num) (by norm_num)

/-- C4: the Stage-3 lookup is total and matches the declared table on all
fifteen (validity, strength) pairs; for validity "not" it returns
"no confidence trade" for every strength value. -/
theorem stage3Table_complete :
    stage3Table "very" "strong buy" = some "high confidence buy" ∧
    stage3Table "very" "average buy" = some "moderate confidence buy" ∧
    stage3Table "very" "neutral" = some "no confidence trade" ∧
    stage3Table "very" "strong sell" = some "high confidence sell" ∧
    stage3Table "very" "average sell" = some "moderate confidence sell" ∧
    stage3Table "slight" "strong buy" = some "moderate confidence buy" ∧
    stage3Table "slight" "average buy" = some "low confidence buy" ∧
    stage3Table "slight" "neutral" = some "no confidence trade" ∧
    stage3Table "slight" "strong sell" = some "moderate confidence sell" ∧
    stage3Table "slight" "average sell" = some "low confidence sell" ∧
    stage3Table "not" "strong buy" = some "no confidence trade" ∧
    stage3Table "not" "average buy" = some "no confidence trade" ∧
    stage3Table "not" "neutral" = some "no confidence trade" ∧
    stage3Table "not" "strong sell" = some "no confidence trade" ∧
    stage3Table "not" "average sell" = some "no confidence trade" := by
  decide

/-- C5: for every six inputs with `askPrice ≠ 0`, construction succeeds and
`block3` on the constructed record returns `some` decision among exactly the
seven enumerated strings: the implicit fall-through of the nested
conditional (which would return `none`) is unreachable, because `block1`
emits only the three validity tags and `block2` only the five strength
tags. -/
theorem evaluate_safe (ma_s ma_l rsi beta_stock bid_price ask_price : ℚ)
    (h : ask_price ≠ 0) :
    ∃ r, StockMarketFuzzyLogic.init ma_s ma_l rsi beta_stock bid_price ask_price =
        some r ∧
      ∃ d, r.block3 = some d ∧ d ∈ decisionStrings := by
  refine ⟨⟨ma_s, ma_l, rsi, beta_stock, bid_price, ask_price,
    (ask_price - bid_price) / ask_price, ma_s - ma_l⟩, ?_, block3_total _⟩
  unfold StockMarketFuzzyLogic.init
  rw [if_neg h]

/-- Witness for C5 at the sample inputs of `main.py`. -/
theorem evaluate_safe_witness :
    (131.78 : ℚ) ≠ 0 ∧
      ∃ r, StockMarketFuzzyLogic.init 127.64 107.17 50.64 1.28 131.75 131.78 =
          some r ∧
        ∃ d, r.block3 = some d ∧ d ∈ decisionStrings :=
  ⟨by norm_num, evaluate_safe 127.64 107.17 50.64 1.28 131.75 131.78 (by norm_num)⟩

/-- C6: construction fails (the division raises) exactly when
`askPrice = 0`, and that failure propagates unrecovered through the
end-to-end evaluation; for every `askPrice ≠ 0` construction succeeds. -/
theorem init_zero_division (ma_s ma_l rsi beta_stock bid_price ask_price : ℚ) :
    (StockMarketFuzzyLogic.init ma_s ma_l rsi beta_stock bid_price ask_price = none ↔
      ask_price = 0) ∧
    (ask_price = 0 → evaluate ma_s ma_l rsi beta_stock bid_price ask_price = none) := by
  constructor
  · unfold StockMarketFuzzyLogic.init
    split_ifs with h <;> simp [h]
  · intro h
    unfold evaluate StockMarketFuzzyLogic.init
    rw [if_pos h]
    rfl

/-- Witness for C6: with `askPrice = 0` the whole evaluation returns the
error value. -/
theorem init_zero_division_witness :
    evaluate 1 2 3 4 5 0 = none :=
  (init_zero_division 1 2 3 4 5 0).2 rfl

/-- C7: in the explicit state-passing semantics each stage returns the
record unchanged (all eight fields), and a second successive evaluation of
each stage yields the identical result: the stages are deterministic pure
functions with no hidden mutable state. -/
theorem blocks_pure (s : StockMarketFuzzyLogic) :
    s.block1St.2 = s ∧ s.block2St.2 = s ∧ s.block3St.2 = s ∧
    s.block3St.2.block3St.1 = s.block3St.1 ∧
    s.block2St.2.block2St.1 = s.block2St.1 ∧
    s.block1St.2.block1St.1 = s.block1St.1 :=
  ⟨rfl, rfl, rfl, rfl, rfl, rfl⟩

/-- C8: for every six raw inputs with `askPrice ≠ 0`, construction stores
the six raw fields unchanged and computes exactly
`bid_ask_spread = (askPrice - bidPrice) / askPrice` and
`dcm = shortMA - longMA`. -/
theorem init_derived_fields (ma_s ma_l rsi beta_stock bid_price ask_price : ℚ)
    (h : ask_price ≠ 0) :
    ∃ r, StockMarketFuzzyLogic.init ma_s ma_l rsi beta_stock bid_price ask_price =
        some r ∧
      r.ma_s = ma_s ∧ r.ma_l = ma_l ∧ r.rsi = rsi ∧ r.beta_stock = beta_stock ∧
      r.bid_price = bid_price ∧ r.ask_price = ask_price ∧
      r.bid_ask_spread = (ask_price - bid_price) / ask_price ∧
      r.dcm = ma_s - ma_l := by
  refine ⟨⟨ma_s, ma_l, rsi, beta_stock, bid_price, ask_price,
    (ask_price - bid_price) / ask_price, ma_s - ma_l⟩, ?_,
    rfl, rfl, rfl, rfl, rfl, rfl, rfl, rfl⟩
  unfold StockMarketFuzzyLogic.init
  rw [if_neg h]

/-- Witness for C8 at concrete inputs. -/
theorem init_derived_fields_witness :
    (10 : ℚ) ≠ 0 ∧
      ∃ r, StockMarketFuzzyLogic.init 3 1 50 2 9 10 = some r ∧
        r.ma_s = 3 ∧ r.ma_l = 1 ∧ r.rsi = 50 ∧ r.beta_stock = 2 ∧
        r.bid_price = 9 ∧ r.ask_price = 10 ∧
        r.bid_ask_spread = (10 - 9) / 10 ∧ r.dcm = 3 - 1 :=
  ⟨by norm_num, init_derived_fields 3 1 50 2 9 10 (by norm_num)⟩

/-- C9: noninterference through the derived values: two records agreeing on
the quadruple `(beta_stock, bid_ask_spread, dcm, rsi)` get the same `block3`
decision even if the raw `ma_s`, `ma_l`, `bid_price`, `ask_price` fields
differ; and through construction, the decision depends on `shortMA` and
`longMA` only through their difference, and on `bidPrice` and `askPrice`
only through `(askPrice - bidPrice) / askPrice`. -/
theorem block3_noninterference :
    (∀ s t : StockMarketFuzzyLogic,
      s.beta_stock = t.beta_stock → s.bid_ask_spread = t.bid_ask_spread →
      s.dcm = t.dcm → s.rsi = t.rsi → s.block3 = t.block3) ∧
    (∀ a1 l1 r1 b1 p1 q1 a2 l2 r2 b2 p2 q2 : ℚ, q1 ≠ 0 → q2 ≠ 0 →
      b1 = b2 → r1 = r2 → a1 - l1 = a2 - l2 →
      (q1 - p1) / q1 = (q2 - p2) / q2 →
      evaluate a1 l1 r1 b1 p1 q1 = evaluate a2 l2 r2 b2 p2 q2) := by
  refine ⟨block3_congr, ?_⟩
  intro a1 l1 r1 b1 p1 q1 a2 l2 r2 b2 p2 q2 h1 h2 hb hr hd hsp
  unfold evaluate StockMarketFuzzyLogic.init
  rw [if_neg h1, if_neg h2]
  simp only [Option.some_bind]
  exact block3_congr _ _ hb hsp hd hr

/-- Witness for C9: two concrete records (and two concrete input tuples)
with different raw values but equal derived quadruples evaluate alike. -/
theorem block3_noninterference_witness :
    (⟨5, 3, 60, 2, 1, 1, 0, 2⟩ : StockMarketFuzzyLogic).block3 =
      (⟨10, 8, 60, 2, 7, 9, 0, 2⟩ : StockMarketFuzzyLogic).block3 ∧
    evaluate 5 3 60 2 1 1 = evaluate 10 8 60 2 9 9 :=
  ⟨block3_noninterference.1 _ _ rfl rfl rfl rfl,
   block3_noninterference.2 5 3 60 2 1 1 10 8 60 2 9 9 (by norm_num) (by norm_num)
     rfl rfl (by norm_num) (by norm_num)⟩

/-- C10: every one of the seven decision strings is reachable from six raw
inputs with `askPrice ≠ 0` through the full evaluation. -/
theorem all_decisions_reachable :
    evaluate 2 0 60 2 1 1 = some "high confidence buy" ∧
    evaluate 2 0 80 2 1 1 = some "moderate confidence buy" ∧
    evaluate 2 0 80 1 1 1 = some "low confidence buy" ∧
    evaluate 0 0 60 0.5 0 1 = some "no confidence trade" ∧
    evaluate 0 0 40 2 1 1 = some "high confidence sell" ∧
    evaluate 0 0 40 1 1 1 = some "moderate confidence sell" ∧
    evaluate 0 0 20 1 1 1 = some "low confidence sell" := by
  refine ⟨?_, ?_, ?_, ?_, ?_, ?_, ?_⟩ <;>
    norm_num [evaluate, StockMarketFuzzyLogic.init, StockMarketFuzzyLogic.block3,
      StockMarketFuzzyLogic.block1, StockMarketFuzzyLogic.block2, stage3Table] <;>
    decide
